import Mathlib

/-!
Shallow embedding of the real-time collaboration server in
`src/websocket_server.py` (class `CollaborationServer` and the module-level
global state), used to check the natural-language specification against the
code.

Modelling conventions:
* A websocket connection is a `Nat`; `id(websocket)` (the `client_id`) is the
  connection itself, since CPython object identity is injective on live
  objects.
* Python `dict`s become association lists (`List (key × value)`) with
  `alookup` / `ainsert` / `aerase`; dict key order is not observable by any
  property checked here.  Python `set`s become duplicate-free lists with
  `sAdd` / `sRemove`.
* Wall-clock data (`datetime.now().isoformat()` timestamps and
  `websocket.remote_address`) is elided: `USER_INFO` values keep only the
  `user_id` field.  No checked property mentions timestamps or addresses.
* `await client.send(...)` becomes an emitted event `(recipient, message)`;
  each operation returns the new state together with the list of send events
  it produced.  JSON serialization is elided: events carry the structured
  message.  `asyncio.gather(..., return_exceptions=True)` is modelled by
  `gatherOutcomes`, which records one outcome per dispatched send under an
  arbitrary failure assignment.
* A `KeyError` raised mid-handler (caught by the blanket `except Exception`
  in `handle_message`) leaves the mutations made before the raise in place
  and aborts the rest of the branch; the model reproduces this in the
  `file_open` branch where `USER_FILES[user_id].add(file_path)` can raise.
-/

namespace CollabServer

/-- Lookup in an association list (Python `d.get(k)` / `d[k]`). -/
def alookup {α β : Type} [DecidableEq α] : List (α × β) → α → Option β
  | [], _ => none
  | (k, v) :: rest, k' => if k' = k then some v else alookup rest k'

/-- Remove every binding of a key (Python `d.pop(k)` on a dict, whose keys
are unique). -/
def aerase {α β : Type} [DecidableEq α] (l : List (α × β)) (k : α) : List (α × β) :=
  l.filter (fun e => decide (e.1 ≠ k))

/-- Overwrite-or-add a binding (Python `d[k] = v`). -/
def ainsert {α β : Type} [DecidableEq α] (l : List (α × β)) (k : α) (v : β) : List (α × β) :=
  (k, v) :: aerase l k

/-- Add an element to a set (Python `s.add(x)`). -/
def sAdd {α : Type} [DecidableEq α] (l : List α) (x : α) : List α :=
  if x ∈ l then l else x :: l

/-- Remove an element from a set (Python `s.discard(x)`). -/
def sRemove {α : Type} [DecidableEq α] (l : List α) (x : α) : List α :=
  l.filter (fun y => decide (y ≠ x))

/-- Cursor data stored in `USER_CURSORS` (timestamp elided); the `line` and
`column` fields come from `message.get(...)` and may be absent. -/
structure CursorData where
  field : Option String
  line : Option Int
  column : Option Int
deriving DecidableEq, Repr

/-- Outbound messages the server sends (timestamp fields elided). -/
inductive SMsg where
  | init (user_id : String) (webedit : List (String × String))
      (files : List (String × String)) (users : List String)
      (cursors : List (String × CursorData)) (file_users : List (String × List String))
  | user_joined (user_id : String) (total_users : Nat)
  | user_left (user_id : String) (total_users : Nat)
  | code_update (field : String) (value : String) (user_id : String)
  | file_opened (file_path : String) (user_id : String) (users_editing : List String)
  | file_closed (file_path : String) (user_id : String) (users_editing : List String)
  | file_update (file_path : String) (content : String) (user_id : String)
  | cursor_update (user_id : String) (cursor : CursorData)
  | chat_message (user_id : String) (message : String)
  | pong
deriving DecidableEq, Repr

/-- Parsed inbound messages, one constructor per `message_type` branch of
`handle_message`.  Fields read with `message.get(k)` (no default) are
`Option`s; fields read with a `''` default are plain strings. -/
inductive ClientMsg where
  | code_update (field : Option String) (value : String)
  | file_open (file_path : Option String) (content : String)
  | file_close (file_path : Option String)
  | file_update (file_path : Option String) (content : String)
  | cursor_update (field : Option String) (line : Option Int) (column : Option Int)
  | chat_message (message : String)
  | ping
  | unknown
deriving DecidableEq, Repr

/-- The module-level global state of `websocket_server.py`. -/
structure ServerState where
  CONNECTED_CLIENTS : List Nat
  USER_INFO : List (Nat × String)
  WEBEDIT_STATE : List (String × String)
  FILE_STATE : List (String × String)
  FILE_USERS : List (String × List String)
  USER_FILES : List (String × List String)
  USER_CURSORS : List (String × CursorData)
deriving DecidableEq, Repr

/-- Initial global state of the module. -/
def initialState : ServerState where
  CONNECTED_CLIENTS := []
  USER_INFO := []
  WEBEDIT_STATE := [("css", ""), ("javascript", ""), ("html", "")]
  FILE_STATE := []
  FILE_USERS := []
  USER_FILES := []
  USER_CURSORS := []

/-- Python truthiness of `message.get('file_path')`: both a missing key
(`None`) and the empty string fail the `if file_path:` guard. -/
def truthyPath : Option String → Option String
  | none => none
  | some p => if p.isEmpty then none else some p

/-- The sender lookup `USER_INFO.get(client_id, \x7b\x7d).get('user_id', 'unknown')`. -/
def userIdOf (s : ServerState) (websocket : Nat) : String :=
  (alookup s.USER_INFO websocket).getD "unknown"

/-- The subscriber set of a path (`FILE_USERS.get(path, set())` view). -/
def subscribers (s : ServerState) (file_path : String) : List String :=
  (alookup s.FILE_USERS file_path).getD []

/-- The open-files set of a user (`USER_FILES.get(user_id, set())` view). -/
def openFilesOf (s : ServerState) (user_id : String) : List String :=
  (alookup s.USER_FILES user_id).getD []

/-- `CollaborationServer.broadcast`: early return on an empty live set,
otherwise one send per connected client other than `exclude`. -/
def broadcast (clients : List Nat) (message : SMsg) (exclude : Option Nat) :
    List (Nat × SMsg) :=
  if clients.isEmpty then []
  else
    (clients.filter (fun c =>
      match exclude with
      | none => true
      | some e => decide (c ≠ e))).map (fun c => (c, message))

/-- Outcome of `asyncio.gather(*tasks, return_exceptions=True)`: every
dispatched send is attempted and its own success or failure recorded,
independently of the other sends. -/
def gatherOutcomes (fails : Nat → Bool) (sends : List (Nat × SMsg)) :
    List (Nat × Bool) :=
  sends.map (fun e => (e.1, fails e.1))

/-- `CollaborationServer.register_client`. -/
def register_client (websocket : Nat) (s : ServerState) :
    ServerState × List (Nat × SMsg) :=
  let clients := sAdd s.CONNECTED_CLIENTS websocket
  let client_id := websocket
  let user_id := "user_" ++ toString (s.USER_INFO.length + 1)
  let userInfo := ainsert s.USER_INFO client_id user_id
  let userFiles := ainsert s.USER_FILES user_id []
  let s1 : ServerState :=
    { s with CONNECTED_CLIENTS := clients, USER_INFO := userInfo,
             USER_FILES := userFiles }
  let initEvent : Nat × SMsg :=
    (websocket, SMsg.init user_id s1.WEBEDIT_STATE s1.FILE_STATE
      (s1.USER_INFO.map (fun e => e.2)) s1.USER_CURSORS s1.FILE_USERS)
  (s1, initEvent ::
    broadcast s1.CONNECTED_CLIENTS
      (SMsg.user_joined user_id s1.CONNECTED_CLIENTS.length) (some websocket))

/-- `CollaborationServer.unregister_client`. -/
def unregister_client (websocket : Nat) (s : ServerState) :
    ServerState × List (Nat × SMsg) :=
  let clients := sRemove s.CONNECTED_CLIENTS websocket
  let client_id := websocket
  match alookup s.USER_INFO client_id with
  | none => ({ s with CONNECTED_CLIENTS := clients }, [])
  | some user_id =>
    let userInfo := aerase s.USER_INFO client_id
    let cursors := aerase s.USER_CURSORS user_id
    let cleaned :=
      match alookup s.USER_FILES user_id with
      | none => (s.USER_FILES, s.FILE_USERS)
      | some files =>
        (aerase s.USER_FILES user_id,
         files.foldl (fun fu file_path =>
           match alookup fu file_path with
           | none => fu
           | some users =>
             let users1 := sRemove users user_id
             if users1.isEmpty then aerase fu file_path
             else ainsert fu file_path users1) s.FILE_USERS)
    let s1 : ServerState :=
      { s with CONNECTED_CLIENTS := clients, USER_INFO := userInfo,
               USER_CURSORS := cursors, USER_FILES := cleaned.1,
               FILE_USERS := cleaned.2 }
    (s1, broadcast s1.CONNECTED_CLIENTS
      (SMsg.user_left user_id s1.CONNECTED_CLIENTS.length) none)

/-- `CollaborationServer.handle_message`, one match arm per `elif` branch. -/
def handle_message (websocket : Nat) (message : ClientMsg) (s : ServerState) :
    ServerState × List (Nat × SMsg) :=
  let user_id := userIdOf s websocket
  match message with
  | .code_update field value =>
    match field with
    | some f =>
      if (alookup s.WEBEDIT_STATE f).isSome then
        let s1 := { s with WEBEDIT_STATE := ainsert s.WEBEDIT_STATE f value }
        (s1, broadcast s1.CONNECTED_CLIENTS
          (SMsg.code_update f value user_id) (some websocket))
      else (s, [])
    | none => (s, [])
  | .file_open file_path content =>
    match truthyPath file_path with
    | some fp =>
      let fu0 :=
        if (alookup s.FILE_USERS fp).isSome then s.FILE_USERS
        else ainsert s.FILE_USERS fp []
      let fu1 := ainsert fu0 fp (sAdd ((alookup fu0 fp).getD []) user_id)
      match alookup s.USER_FILES user_id with
      | none =>
        ({ s with FILE_USERS := fu1 }, [])
      | some ufiles =>
        let uf1 := ainsert s.USER_FILES user_id (sAdd ufiles fp)
        let fs1 :=
          if (alookup s.FILE_STATE fp).isSome then s.FILE_STATE
          else ainsert s.FILE_STATE fp content
        let s1 := { s with FILE_USERS := fu1, USER_FILES := uf1, FILE_STATE := fs1 }
        (s1, broadcast s1.CONNECTED_CLIENTS
          (SMsg.file_opened fp user_id ((alookup fu1 fp).getD [])) (some websocket))
    | none => (s, [])
  | .file_close file_path =>
    match truthyPath file_path with
    | some fp =>
      match alookup s.USER_FILES user_id with
      | none => (s, [])
      | some ufiles =>
        let uf1 := ainsert s.USER_FILES user_id (sRemove ufiles fp)
        match alookup s.FILE_USERS fp with
        | none => ({ s with USER_FILES := uf1 }, [])
        | some users =>
          let fu1 := ainsert s.FILE_USERS fp (sRemove users user_id)
          let s1 := { s with USER_FILES := uf1, FILE_USERS := fu1 }
          (s1, broadcast s1.CONNECTED_CLIENTS
            (SMsg.file_closed fp user_id ((alookup fu1 fp).getD [])) (some websocket))
    | none => (s, [])
  | .file_update file_path content =>
    match truthyPath file_path with
    | some fp =>
      let s1 := { s with FILE_STATE := ainsert s.FILE_STATE fp content }
      (s1, broadcast s1.CONNECTED_CLIENTS
        (SMsg.file_update fp content user_id) (some websocket))
    | none => (s, [])
  | .cursor_update field line column =>
    let cursor : CursorData := { field := field, line := line, column := column }
    let s1 := { s with USER_CURSORS := ainsert s.USER_CURSORS user_id cursor }
    (s1, broadcast s1.CONNECTED_CLIENTS
      (SMsg.cursor_update user_id cursor) (some websocket))
  | .chat_message text =>
    (s, broadcast s.CONNECTED_CLIENTS
      (SMsg.chat_message user_id text) (some websocket))
  | .ping => (s, [(websocket, SMsg.pong)])
  | .unknown => (s, [])

/-- One server-side operation of a run. -/
inductive Op where
  | register (websocket : Nat)
  | unregister (websocket : Nat)
  | message (websocket : Nat) (m : ClientMsg)
deriving DecidableEq, Repr

/-- State reached after one operation (send events dropped). -/
def stepOp (s : ServerState) (op : Op) : ServerState :=
  match op with
  | .register ws => (register_client ws s).1
  | .unregister ws => (unregister_client ws s).1
  | .message ws m => (handle_message ws m s).1

/-- State reached from the initial module state by a list of operations. -/
def runOps (ops : List Op) : ServerState :=
  ops.foldl stepOp initialState

/-! Basic lemmas about the map and set helpers. -/

theorem alookup_ainsert_self {α β : Type} [DecidableEq α]
    (l : List (α × β)) (k : α) (v : β) : alookup (ainsert l k v) k = some v := by
  simp [ainsert, alookup]

theorem alookup_aerase_self {α β : Type} [DecidableEq α]
    (l : List (α × β)) (k : α) : alookup (aerase l k) k = none := by
  induction l with
  | nil => rfl
  | cons e rest ih =>
    by_cases h : e.1 = k
    · simpa [aerase, List.filter, h] using ih
    · simpa [aerase, List.filter, h, alookup, Ne.symm h] using ih

theorem sRemove_sRemove {α : Type} [DecidableEq α] (l : List α) (x : α) :
    sRemove (sRemove l x) x = sRemove l x := by
  simp [sRemove, List.filter_filter]

theorem not_mem_sRemove_self {α : Type} [DecidableEq α] (l : List α) (x : α) :
    x ∉ sRemove l x := by
  simp [sRemove]

/-- C4: unregister is idempotent — a second `unregister_client` on an
already-removed connection returns the state unchanged and emits no send
events at all, in particular no second `user_left` broadcast. -/
theorem unregister_client_idempotent (s : ServerState) (ws : Nat) :
    unregister_client ws (unregister_client ws s).1 = ((unregister_client ws s).1, []) := by
  cases h : alookup s.USER_INFO ws with
  | none => simp [unregister_client, h, sRemove_sRemove]
  | some uid => simp [unregister_client, h, alookup_aerase_self, sRemove_sRemove]

/-- C9: the `file_close` branch of `handle_message` never touches
`FILE_STATE`, so the stored content of every path — including a path whose
last subscriber is closing it — stays exactly as it was. -/
theorem file_close_frames_FILE_STATE (s : ServerState) (ws : Nat) (fp : Option String) :
    ((handle_message ws (.file_close fp) s).1).FILE_STATE = s.FILE_STATE := by
  unfold handle_message
  cases h : truthyPath fp with
  | none => simp [h]
  | some p =>
    simp only [h]
    cases alookup s.USER_FILES (userIdOf s ws) with
    | none => rfl
    | some ufiles =>
      cases alookup s.FILE_USERS p with
      | none => rfl
      | some users =>  rfl

/-- C10: a `file_open`, `file_close` or `file_update` message whose
`file_path` is the empty string is handled exactly like one with no
`file_path` at all: the state is returned unchanged and no send event is
produced, because the guard tests Python truthiness of the value. -/
theorem empty_file_path_is_noop (s : ServerState) (ws : Nat) (c : String) :
    (handle_message ws (.file_open (some "") c) s = (s, [])
      ∧ handle_message ws (.file_open none c) s = (s, []))
    ∧ (handle_message ws (.file_close (some "")) s = (s, [])
      ∧ handle_message ws (.file_close none) s = (s, []))
    ∧ (handle_message ws (.file_update (some "") c) s = (s, [])
      ∧ handle_message ws (.file_update none c) s = (s, [])) := by
  refine ⟨⟨rfl, rfl⟩, ⟨rfl, rfl⟩, ⟨rfl, rfl⟩⟩

/-- C8: a `code_update` whose field is not a key of `WEBEDIT_STATE` is
silently dropped — state unchanged, no broadcast, no reply to the sender —
while for a recognized field the write happens unconditionally. -/
theorem code_update_unrecognized_field_dropped (s : ServerState) (ws : Nat) (f v : String) :
    match alookup s.WEBEDIT_STATE f with
    | none => handle_message ws (.code_update (some f) v) s = (s, [])
    | some _ =>
        alookup ((handle_message ws (.code_update (some f) v) s).1).WEBEDIT_STATE f = some v := by
  cases h : alookup s.WEBEDIT_STATE f with
  | none => simp [handle_message, h]
  | some w => simp [handle_message, h, alookup_ainsert_self]

/-- C5: last write wins on a quadrant field — for a field present in
`WEBEDIT_STATE`, two `code_update` messages applied in order A then B, from
any senders, leave the field holding B's value; broadcasts never touch the
stored state, so timing of the fan-out is irrelevant. -/
theorem code_update_last_write_wins (s : ServerState) (wsA wsB : Nat) (f vA vB : String)
    (h : (alookup s.WEBEDIT_STATE f).isSome) :
    alookup ((handle_message wsB (.code_update (some f) vB)
      ((handle_message wsA (.code_update (some f) vA) s).1)).1).WEBEDIT_STATE f = some vB := by
  obtain ⟨w, hw⟩ := Option.isSome_iff_exists.mp h
  simp [handle_message, hw, alookup_ainsert_self]

/-- Witness for `code_update_last_write_wins` at the field `css` of the
initial state. -/
theorem code_update_last_write_wins_witness :
    (alookup initialState.WEBEDIT_STATE "css").isSome = true
    ∧ alookup ((handle_message 2 (.code_update (some "css") "b")
        ((handle_message 1 (.code_update (some "css") "a") initialState).1)).1).WEBEDIT_STATE "css"
      = some "b" :=
  ⟨by decide, code_update_last_write_wins initialState 1 2 "css" "a" "b" (by decide)⟩

/-- C7: first opener wins — `file_open` seeds `FILE_STATE` at the path with
the client-supplied content exactly when the path has no entry yet, and
leaves the whole map untouched when an entry already exists.  The sender
must have a `USER_FILES` entry (always true for a registered connection),
otherwise the handler aborts on a `KeyError` before reaching the seeding
step. -/
theorem file_open_first_opener_wins (s : ServerState) (ws : Nat) (p c : String)
    (hp : ¬ p.isEmpty) (hu : (alookup s.USER_FILES (userIdOf s ws)).isSome) :
    ((handle_message ws (.file_open (some p) c) s).1).FILE_STATE
      = if (alookup s.FILE_STATE p).isSome then s.FILE_STATE
        else ainsert s.FILE_STATE p c := by
  obtain ⟨uf, huf⟩ := Option.isSome_iff_exists.mp hu
  have hp2 : p.isEmpty = false := by simpa using hp
  simp [handle_message, truthyPath, hp2, huf]

/-- Witness for `file_open_first_opener_wins`: the first registered user
opens a fresh path. -/
theorem file_open_first_opener_wins_witness :
    (¬ ("a.txt").isEmpty)
    ∧ (alookup (runOps [.register 1]).USER_FILES (userIdOf (runOps [.register 1]) 1)).isSome = true
    ∧ ((handle_message 1 (.file_open (some "a.txt") "x") (runOps [.register 1])).1).FILE_STATE
      = if (alookup (runOps [.register 1]).FILE_STATE "a.txt").isSome
        then (runOps [.register 1]).FILE_STATE
        else ainsert (runOps [.register 1]).FILE_STATE "a.txt" "x" :=
  ⟨by decide, by decide,
   file_open_first_opener_wins (runOps [.register 1]) 1 "a.txt" "x" (by decide) (by decide)⟩

/-- C6: `broadcast` with an excluded live connection sends to exactly the
other live connections, never to the excluded one, and under any failure
assignment every non-excluded live connection still gets its own delivery
attempt recorded by the gather — one send failing does not remove another
recipient's attempt. -/
theorem broadcast_excludes_only_sender (clients : List Nat) (m : SMsg) (connA c : Nat)
    (fails : Nat → Bool) (hA : connA ∈ clients) :
    ((c, m) ∈ broadcast clients m (some connA) ↔ (c ∈ clients ∧ c ≠ connA))
    ∧ (connA, m) ∉ broadcast clients m (some connA)
    ∧ (c ∈ clients → c ≠ connA →
        (c, fails c) ∈ gatherOutcomes fails (broadcast clients m (some connA))) := by
  have hne : clients.isEmpty = false := by
    cases clients with
    | nil => cases hA
    | cons a l => rfl
  have hmem : ∀ x : Nat, ((x, m) ∈ broadcast clients m (some connA)) ↔ (x ∈ clients ∧ x ≠ connA) := by
    intro x
    simp [broadcast, hne]
  refine ⟨hmem c, ?_, ?_⟩
  · intro hc
    exact ((hmem connA).mp hc).2 rfl
  · intro hc hcne
    have hsend : (c, m) ∈ broadcast clients m (some connA) := (hmem c).mpr ⟨hc, hcne⟩
    simpa [gatherOutcomes] using List.mem_map_of_mem (fun e => (e.1, fails e.1)) hsend

/-- Witness for `broadcast_excludes_only_sender` on the live set `[5, 7]`
with sender `5` excluded and every send failing. -/
theorem broadcast_excludes_only_sender_witness :
    ((5 : Nat) ∈ [5, 7])
    ∧ (((7, SMsg.pong) ∈ broadcast [5, 7] SMsg.pong (some 5)) ↔ ((7 : Nat) ∈ [5, 7] ∧ (7 : Nat) ≠ 5))
    ∧ ((5, SMsg.pong) ∉ broadcast [5, 7] SMsg.pong (some 5))
    ∧ ((7, true) ∈ gatherOutcomes (fun _ => true) (broadcast [5, 7] SMsg.pong (some 5))) :=
  ⟨by decide,
   (broadcast_excludes_only_sender [5, 7] SMsg.pong 5 7 (fun _ => true) (by decide)).1,
   (broadcast_excludes_only_sender [5, 7] SMsg.pong 5 7 (fun _ => true) (by decide)).2.1,
   (broadcast_excludes_only_sender [5, 7] SMsg.pong 5 7 (fun _ => true) (by decide)).2.2
     (by decide) (by decide)⟩

/-- C2 (amended): after `file_open` then `file_close` of the same path by
the same connection, the user is no longer in the path's subscriber set,
but the path REMAINS a key of `FILE_USERS` (mapped to its now possibly
empty subscriber set): `file_close` only discards the user and never
deletes an emptied path entry — only `unregister_client` does that. -/
theorem open_close_removes_subscriber_keeps_entry
    (s : ServerState) (ws : Nat) (p c : String)
    (hp : ¬ p.isEmpty) (hu : (alookup s.USER_FILES (userIdOf s ws)).isSome) :
    userIdOf s ws ∉ subscribers ((handle_message ws (.file_close (some p))
        ((handle_message ws (.file_open (some p) c) s).1)).1) p
    ∧ (alookup ((handle_message ws (.file_close (some p))
        ((handle_message ws (.file_open (some p) c) s).1)).1).FILE_USERS p).isSome := by
  obtain ⟨uf, huf⟩ := Option.isSome_iff_exists.mp hu
  have hp2 : p.isEmpty = false := by simpa using hp
  have hopen : ((handle_message ws (.file_open (some p) c) s).1.USER_INFO = s.USER_INFO)
      ∧ ((alookup ((handle_message ws (.file_open (some p) c) s).1).USER_FILES
            (userIdOf s ws)).isSome)
      ∧ ((alookup ((handle_message ws (.file_open (some p) c) s).1).FILE_USERS p).isSome) := by
    refine ⟨?_, ?_, ?_⟩ <;> simp [handle_message, truthyPath, hp2, huf, alookup_ainsert_self]
  obtain ⟨L, hL⟩ := Option.isSome_iff_exists.mp hopen.2.1
  obtain ⟨W, hW⟩ := Option.isSome_iff_exists.mp hopen.2.2
  have hid : userIdOf ((handle_message ws (.file_open (some p) c) s).1) ws = userIdOf s ws := by
    simp [userIdOf, hopen.1]
  generalize ht : (handle_message ws (.file_open (some p) c) s).1 = t at hL hW hid ⊢
  simp [handle_message, truthyPath, hp2, hid, hL, hW, subscribers,
    alookup_ainsert_self, not_mem_sRemove_self]

/-- Witness for `open_close_removes_subscriber_keeps_entry`: the first
registered user opens then closes `a.txt`. -/
theorem open_close_removes_subscriber_keeps_entry_witness :
    (¬ ("a.txt").isEmpty)
    ∧ (alookup (runOps [.register 1]).USER_FILES (userIdOf (runOps [.register 1]) 1)).isSome = true
    ∧ (userIdOf (runOps [.register 1]) 1 ∉ subscribers ((handle_message 1 (.file_close (some "a.txt"))
        ((handle_message 1 (.file_open (some "a.txt") "x") (runOps [.register 1])).1)).1) "a.txt"
      ∧ (alookup ((handle_message 1 (.file_close (some "a.txt"))
          ((handle_message 1 (.file_open (some "a.txt") "x") (runOps [.register 1])).1)).1).FILE_USERS
          "a.txt").isSome) :=
  ⟨by decide, by decide,
   open_close_removes_subscriber_keeps_entry (runOps [.register 1]) 1 "a.txt" "x"
     (by decide) (by decide)⟩

/-- C2 (counterexample to the claim as stated): after the sole subscriber
of `a.txt` opens and then closes it, the subscriber set is empty yet the
path is still present as a key of `FILE_USERS` — `file_close` does not
delete the emptied entry, contradicting the claim that the path becomes
absent from the Subscription Index. -/
theorem close_leaves_empty_subscriber_entry :
    alookup (runOps [.register 1, .message 1 (.file_open (some "a.txt") "x"),
      .message 1 (.file_close (some "a.txt"))]).FILE_USERS "a.txt" = some [] := by
  decide

/-- C1: user_id allocation is NOT process-unique — `register_client` uses
`len(USER_INFO) + 1`, so after conn 1 and conn 2 register and conn 1
disconnects, a new conn 3 is assigned `user_2`, the identifier still held
by the live conn 2. -/
theorem user_id_reused_after_unregister :
    userIdOf (runOps [.register 1, .register 2, .unregister 1, .register 3]) 2 = "user_2"
    ∧ userIdOf (runOps [.register 1, .register 2, .unregister 1, .register 3]) 3 = "user_2" := by
  decide

/-- C3: the subscription symmetry invariant fails on a reachable run —
after the user_id collision of C1, the fresh registration of conn 3 as
`user_2` resets `USER_FILES[user_2]` to the empty set while `user_2` is
still recorded as a subscriber of `a.txt` (opened by the live conn 2), so
`user_2 ∈ subscribers(a.txt)` but `a.txt ∉ open(user_2)`. -/
theorem symmetry_invariant_violated :
    "user_2" ∈ subscribers (runOps [.register 1, .register 2,
        .message 2 (.file_open (some "a.txt") "x"), .unregister 1, .register 3]) "a.txt"
    ∧ "a.txt" ∉ openFilesOf (runOps [.register 1, .register 2,
        .message 2 (.file_open (some "a.txt") "x"), .unregister 1, .register 3]) "user_2" := by
  decide

end CollabServer
